import Mathlib

/-!
Verification of the batch-job lifecycle controller of the gaza-coverage
repository (src/extract.py and src/poll_download_batch.py).

The Python program is shallowly embedded: Python dicts that carry JSON data
become the mutual inductive `Json`/`JsonList`/`JsonObj`, the standard-library
functions `json.dumps`, `json.dump(..., indent=4, ensure_ascii=False)` and
`json.loads` are modelled by executable Lean functions over `List Char`
(numbers are modelled as integers; fractional and exponent number forms are
outside the modelled fragment), and the file-system and remote-API effects
are made explicit as state passed through the functions.
-/

namespace GazaCoverage

/-! ## JSON data model

Python values flowing through the program (dicts, lists, strings, ints,
booleans, None).  A mutual inductive is used so that structural recursion and
induction over nested arrays and objects stay simple. -/

mutual

inductive Json where
  | null : Json
  | bool : Bool → Json
  | num : Int → Json
  | str : String → Json
  | arr : JsonList → Json
  | obj : JsonObj → Json

inductive JsonList where
  | nil : JsonList
  | cons : Json → JsonList → JsonList

inductive JsonObj where
  | nil : JsonObj
  | cons : String → Json → JsonObj → JsonObj

end

/-- Number of elements of a `JsonList`. -/
def jsonListLength : JsonList → Nat
  | .nil => 0
  | .cons _ tl => 1 + jsonListLength tl

/-! ## Decimal rendering of integers

Models how Python renders `int` values inside `json.dumps`, `json.dump`
and `str()`. -/

/-- Hexadecimal digit characters, lower case as emitted by Python's
`json` module; also reused for decimal digits (arguments `0`–`9`). -/
def hexChar : Nat → Char
  | 0 => '0' | 1 => '1' | 2 => '2' | 3 => '3' | 4 => '4'
  | 5 => '5' | 6 => '6' | 7 => '7' | 8 => '8' | 9 => '9'
  | 10 => 'a' | 11 => 'b' | 12 => 'c' | 13 => 'd' | 14 => 'e' | 15 => 'f'
  | _ => '0'

/-- Decimal digits of a natural number, most significant first.  The fuel
argument is an upper bound on the number of digits. -/
def natDigitsAux : Nat → Nat → List Char → List Char
  | 0, _, acc => acc
  | fuel + 1, n, acc =>
    if n < 10 then hexChar n :: acc
    else natDigitsAux fuel (n / 10) (hexChar (n % 10) :: acc)

/-- Decimal rendering of a natural number. -/
def natDigitsL (n : Nat) : List Char := natDigitsAux (n + 1) n []

/-- Decimal rendering of a Python `int`. -/
def intDigitsL : Int → List Char
  | .ofNat n => natDigitsL n
  | .negSucc m => '-' :: natDigitsL (m + 1)

/-! ## String escaping of Python `json.dumps` / `json.dump`

`ea` is the `ensure_ascii` flag: `json.dumps` is called with its default
(`True`, non-ASCII characters are `\uXXXX`-escaped), while the result file is
written with `json.dump(..., ensure_ascii=False)` (non-ASCII characters are
written literally). -/

/-- `\uXXXX` escape for a code unit below `0x10000`. -/
def uEscape (n : Nat) : List Char :=
  ['\\', 'u', hexChar (n / 4096 % 16), hexChar (n / 256 % 16),
   hexChar (n / 16 % 16), hexChar (n % 16)]

/-- Escape of one character inside a JSON string literal, following
CPython's `json.encoder` (`ESCAPE_DCT`, and `ESCAPE_ASCII` when
`ensure_ascii` is set; code points above `0xffff` become surrogate pairs). -/
def escapeCharL (ea : Bool) (c : Char) : List Char :=
  if c = '"' then ['\\', '"']
  else if c = '\\' then ['\\', '\\']
  else if c = '\n' then ['\\', 'n']
  else if c = '\r' then ['\\', 'r']
  else if c = '\t' then ['\\', 't']
  else if c.toNat = 8 then ['\\', 'b']
  else if c.toNat = 12 then ['\\', 'f']
  else if c.toNat < 32 then uEscape c.toNat
  else if ea && 126 < c.toNat then
    if c.toNat ≤ 65535 then uEscape c.toNat
    else
      uEscape (55296 + (c.toNat - 65536) / 1024) ++
        uEscape (56320 + (c.toNat - 65536) % 1024)
  else [c]

/-- Body of a JSON string literal: every character escaped. -/
def escListL (ea : Bool) : List Char → List Char
  | [] => []
  | c :: rest => escapeCharL ea c ++ escListL ea rest

/-- A complete JSON string literal, quotes included. -/
def strLitL (ea : Bool) (s : String) : List Char :=
  '"' :: escListL ea s.data ++ ['"']

/-! ## Compact serialization: Python `json.dumps` with default separators
`(", ", ": ")` (src/extract.py line 204). -/

mutual

/-- `json.dumps` of one value, as a character list. -/
def dumpValL (ea : Bool) : Json → List Char
  | .num n => intDigitsL n
  | .null => "null".data
  | .bool true => "true".data
  | .bool false => "false".data
  | .str s => strLitL ea s
  | .arr xs => '[' :: dumpArrL ea xs ++ [']']
  | .obj kvs => '\x7b' :: dumpObjL ea kvs ++ ['\x7d']

/-- Comma-separated array elements. -/
def dumpArrL (ea : Bool) : JsonList → List Char
  | .nil => []
  | .cons x .nil => dumpValL ea x
  | .cons x (.cons y tl) =>
      dumpValL ea x ++ ',' :: ' ' :: dumpArrL ea (.cons y tl)

/-- Comma-separated `"key": value` members. -/
def dumpObjL (ea : Bool) : JsonObj → List Char
  | .nil => []
  | .cons k v .nil => strLitL ea k ++ ':' :: ' ' :: dumpValL ea v
  | .cons k v (.cons k2 v2 tl) =>
      strLitL ea k ++ ':' :: ' ' :: dumpValL ea v ++
        ',' :: ' ' :: dumpObjL ea (.cons k2 v2 tl)

end

/-- `json.dumps(x)` with the defaults used at src/extract.py line 204
(`ensure_ascii=True`, separators `(", ", ": ")`). -/
def json_dumps (j : Json) : String := ⟨dumpValL true j⟩

/-! ## Pretty serialization: Python `json.dump(..., indent=4,
ensure_ascii=False)` (src/extract.py line 259).

With an `indent`, Python separates items by `","` followed by a newline and
the current indentation, and keys from values by `": "`; empty containers
are printed inline as `[]` / `{}`. -/

/-- `n` spaces of indentation. -/
def spacesL : Nat → List Char
  | 0 => []
  | n + 1 => ' ' :: spacesL n

mutual

/-- `json.dump` of one value at indentation level `ind`, `indent=4`,
`ensure_ascii=False`. -/
def pdumpValL (ind : Nat) : Json → List Char
  | .num n => intDigitsL n
  | .null => "null".data
  | .bool true => "true".data
  | .bool false => "false".data
  | .str s => strLitL false s
  | .arr .nil => ['[', ']']
  | .arr (.cons x tl) =>
      '[' :: '\n' :: pdumpArrL (ind + 4) (.cons x tl) ++
        '\n' :: spacesL ind ++ [']']
  | .obj .nil => ['\x7b', '\x7d']
  | .obj (.cons k v tl) =>
      '\x7b' :: '\n' :: pdumpObjL (ind + 4) (.cons k v tl) ++
        '\n' :: spacesL ind ++ ['\x7d']

/-- Array elements, one per line, indented by `ind`. -/
def pdumpArrL (ind : Nat) : JsonList → List Char
  | .nil => []
  | .cons x .nil => spacesL ind ++ pdumpValL ind x
  | .cons x (.cons y tl) =>
      spacesL ind ++ pdumpValL ind x ++
        ',' :: '\n' :: pdumpArrL ind (.cons y tl)

/-- Object members, one per line, indented by `ind`. -/
def pdumpObjL (ind : Nat) : JsonObj → List Char
  | .nil => []
  | .cons k v .nil => spacesL ind ++ strLitL false k ++ ':' :: ' ' :: pdumpValL ind v
  | .cons k v (.cons k2 v2 tl) =>
      spacesL ind ++ strLitL false k ++ ':' :: ' ' :: pdumpValL ind v ++
        ',' :: '\n' :: pdumpObjL ind (.cons k2 v2 tl)

end

/-- `json.dump(x, f, indent=4, ensure_ascii=False)`: the exact text written
to the output file at src/extract.py line 259. -/
def json_dump_indent4 (j : Json) : String := ⟨pdumpValL 0 j⟩

/-! ## Python `str()` / `repr()` of a JSON-shaped value

`create_request` (src/extract.py line 149) wraps its generation-config dict
in `str(...)`, so the textual `repr` of that dict is what lands in the
request.  Modelled for the value shapes that occur there: `repr` of a dict
uses `\x7bk: v, ...\x7d` with single-quoted strings (double quotes are chosen
only when the string contains a single quote and no double quote), `True` /
`False` / `None` for booleans and none, and decimal integers. -/

/-- `repr` escape of one character at the chosen quote `q` (backslashes,
the quote character itself and common control characters). -/
def pyReprEscChar (q : Char) (c : Char) : List Char :=
  if c = '\\' then ['\\', '\\']
  else if c = q then ['\\', q]
  else if c = '\n' then ['\\', 'n']
  else if c = '\r' then ['\\', 'r']
  else if c = '\t' then ['\\', 't']
  else [c]

/-- Characters escaped at quote `q`. -/
def pyReprEscList (q : Char) : List Char → List Char
  | [] => []
  | c :: rest => pyReprEscChar q c ++ pyReprEscList q rest

/-- Python `repr` of a string, including its chosen quotes. -/
def pyStrReprL (s : String) : List Char :=
  let q : Char := if s.data.contains '\'' && !(s.data.contains '"') then '"' else '\''
  q :: pyReprEscList q s.data ++ [q]

mutual

/-- Python `str()` / `repr()` of a value. -/
def pyReprVal : Json → List Char
  | .num n => intDigitsL n
  | .null => "None".data
  | .bool true => "True".data
  | .bool false => "False".data
  | .str s => pyStrReprL s
  | .arr xs => '[' :: pyReprArr xs ++ [']']
  | .obj kvs => '\x7b' :: pyReprObj kvs ++ ['\x7d']

/-- `repr` of list elements, separated by `", "`. -/
def pyReprArr : JsonList → List Char
  | .nil => []
  | .cons x .nil => pyReprVal x
  | .cons x (.cons y tl) => pyReprVal x ++ ',' :: ' ' :: pyReprArr (.cons y tl)

/-- `repr` of dict members, separated by `", "`, key and value by `": "`. -/
def pyReprObj : JsonObj → List Char
  | .nil => []
  | .cons k v .nil => pyStrReprL k ++ ':' :: ' ' :: pyReprVal v
  | .cons k v (.cons k2 v2 tl) =>
      pyStrReprL k ++ ':' :: ' ' :: pyReprVal v ++
        ',' :: ' ' :: pyReprObj (.cons k2 v2 tl)

end

/-! ## Article records and `create_request` (src/extract.py lines 125-157)

An input record is a Python dict; for the fields the program touches only
strings and `None` occur, so values are modelled by `PyVal`.  Subscripting a
dict (`record["body"]`) raises `KeyError` when the key is absent — but
succeeds when the key is present with value `None`. -/

/-- A Python dict value as it appears in an input article record. -/
inductive PyVal where
  | pynone : PyVal
  | pystr : String → PyVal
deriving DecidableEq

/-- An input article record: a Python dict. -/
def Record := List (String × PyVal)

/-- How an f-string renders a value (`f"...\x7brecord['body']\x7d..."`):
strings verbatim, `None` as the text `None`. -/
def fstrPyVal : PyVal → String
  | .pynone => "None"
  | .pystr s => s

/-- How a record value embeds into the request JSON (`json.dumps` renders
Python `None` as `null`). -/
def pyValToJson : PyVal → Json
  | .pynone => .null
  | .pystr s => .str s

/-- The generation-config dict literal of src/extract.py lines 150-154. -/
def genConfigDict (schema : Json) : Json :=
  .obj (.cons "responseMimeType" (.str "application/json")
       (.cons "responseSchema" schema
       (.cons "temperature" (.num 0) .nil)))

/-- `create_request(record, prompt, schema)` (src/extract.py lines 125-157).
Line 139 evaluates `record["body"]` first (inside the f-string), then line
143 evaluates `record["uri"]`; a missing key raises `KeyError`, modelled as
`Except.error`.  Note line 149: the config dict is passed through `str(...)`,
so the `"generationConfig"` entry is a string. -/
def create_request (record : Record) (prompt : String) (schema : Json) :
    Except String Json :=
  match List.lookup "body" record with
  | none => .error "KeyError: body"
  | some bodyVal =>
    let request_text := prompt ++ "<article>" ++ fstrPyVal bodyVal ++ "</article>"
    match List.lookup "uri" record with
    | none => .error "KeyError: uri"
    | some uriVal =>
      .ok (.obj (.cons "key" (pyValToJson uriVal)
           (.cons "request"
             (.obj (.cons "contents"
               (.arr (.cons
                 (.obj (.cons "role" (.str "user")
                       (.cons "parts"
                         (.arr (.cons (.obj (.cons "text" (.str request_text) .nil)) .nil))
                       .nil)))
                 .nil))
               .nil))
           (.cons "generationConfig" (.str ⟨pyReprVal (genConfigDict schema)⟩)
           .nil))))

/-! ## Accessors used to state properties of the built request -/

/-- First binding of a key in an object, as Python dict lookup. -/
def jsonObjLookup : JsonObj → String → Option Json
  | .nil, _ => none
  | .cons k v tl, key => if k = key then some v else jsonObjLookup tl key

/-- Dict lookup on a value (objects only). -/
def Json.lookupKey : Json → String → Option Json
  | .obj kvs, key => jsonObjLookup kvs key
  | _, _ => none

/-- The `"text"` entries of a list of message parts. -/
def partTexts : JsonList → List String
  | .nil => []
  | .cons p tl =>
    match Json.lookupKey p "text" with
    | some (.str t) => t :: partTexts tl
    | _ => partTexts tl

/-- All text parts of a `"contents"` list. -/
def contentTexts : JsonList → List String
  | .nil => []
  | .cons c tl =>
    (match Json.lookupKey c "parts" with
     | some (.arr ps) => partTexts ps
     | _ => []) ++ contentTexts tl

/-- All text parts of a built request. -/
def extractTexts (req : Json) : List String :=
  match Json.lookupKey req "request" with
  | some r =>
    match Json.lookupKey r "contents" with
    | some (.arr cs) => contentTexts cs
    | _ => []
  | _ => []

/-- The successful value of a fallible computation (`Json.null` in the
error case, which the theorems exclude). -/
def okValue (e : Except String Json) : Json :=
  match e with
  | .ok j => j
  | .error _ => .null

/-- Whether a fallible computation succeeded. -/
def isOkB {α : Type} (e : Except String α) : Bool :=
  match e with
  | .error _ => false
  | .ok _ => true

/-! ## A model of `json.loads` (src/extract.py line 256)

A fuel-indexed recursive-descent parser for the JSON fragment the program
exchanges: `null`, booleans, integers, strings (with the standard escapes
and non-surrogate `\uXXXX`), arrays and objects.  Fractional and exponent
number forms are outside the modelled fragment. -/

/-- JSON insignificant whitespace. -/
def jsonWs (c : Char) : Bool := c = ' ' || c = '\t' || c = '\n' || c = '\r'

/-- Drop leading JSON whitespace. -/
def skipWs : List Char → List Char
  | [] => []
  | c :: rest => if jsonWs c then skipWs rest else c :: rest

/-- Value of one hexadecimal digit. -/
def hexVal (c : Char) : Option Nat :=
  let n := c.toNat
  if 48 ≤ n ∧ n ≤ 57 then some (n - 48)
  else if 97 ≤ n ∧ n ≤ 102 then some (n - 87)
  else if 65 ≤ n ∧ n ≤ 70 then some (n - 55)
  else none

/-- Parse the body of a string literal after the opening quote; returns the
decoded characters and the input after the closing quote. -/
def parseStringBody : Nat → List Char → Option (List Char × List Char)
  | 0, _ => none
  | _, [] => none
  | fuel + 1, c :: rest =>
    if c = '"' then some ([], rest)
    else if c = '\\' then
      match rest with
      | [] => none
      | e :: rest2 =>
        if e = '"' then (parseStringBody fuel rest2).map (fun p => ('"' :: p.1, p.2))
        else if e = '\\' then (parseStringBody fuel rest2).map (fun p => ('\\' :: p.1, p.2))
        else if e = '/' then (parseStringBody fuel rest2).map (fun p => ('/' :: p.1, p.2))
        else if e = 'n' then (parseStringBody fuel rest2).map (fun p => ('\n' :: p.1, p.2))
        else if e = 't' then (parseStringBody fuel rest2).map (fun p => ('\t' :: p.1, p.2))
        else if e = 'r' then (parseStringBody fuel rest2).map (fun p => ('\r' :: p.1, p.2))
        else if e = 'b' then (parseStringBody fuel rest2).map (fun p => ('\x08' :: p.1, p.2))
        else if e = 'f' then (parseStringBody fuel rest2).map (fun p => ('\x0c' :: p.1, p.2))
        else if e = 'u' then
          match rest2 with
          | a :: b :: c2 :: d :: rest3 =>
            match hexVal a, hexVal b, hexVal c2, hexVal d with
            | some ha, some hb, some hc, some hd =>
              let n := ((ha * 16 + hb) * 16 + hc) * 16 + hd
              if n < 55296 ∨ 57343 < n then
                (parseStringBody fuel rest3).map (fun p => (Char.ofNat n :: p.1, p.2))
              else none
            | _, _, _, _ => none
          | _ => none
        else none
    else if c.toNat < 32 then none
    else (parseStringBody fuel rest).map (fun p => (c :: p.1, p.2))

/-- Digits of a decimal literal, as a number. -/
def digitsToNat (ds : List Char) : Nat :=
  ds.foldl (fun acc d => 10 * acc + (d.toNat - 48)) 0

/-- Parse an integer literal (an optional minus sign and digits); a
following `.`, `e` or `E` is not part of the modelled fragment and is
rejected. -/
def parseNum (cs : List Char) : Option (Json × List Char) :=
  match cs with
  | '-' :: rest =>
    let ds := rest.takeWhile Char.isDigit
    let rest2 := rest.dropWhile Char.isDigit
    if ds = [] then none
    else
      match rest2 with
      | '.' :: _ => none
      | 'e' :: _ => none
      | 'E' :: _ => none
      | _ => some (.num (-(digitsToNat ds : Int)), rest2)
  | _ =>
    let ds := cs.takeWhile Char.isDigit
    let rest2 := cs.dropWhile Char.isDigit
    if ds = [] then none
    else
      match rest2 with
      | '.' :: _ => none
      | 'e' :: _ => none
      | 'E' :: _ => none
      | _ => some (.num (digitsToNat ds : Int), rest2)

mutual

/-- Parse one JSON value, returning it and the remaining input. -/
def parseVal : Nat → List Char → Option (Json × List Char)
  | 0, _ => none
  | fuel + 1, cs =>
    match skipWs cs with
    | [] => none
    | c :: rest =>
      if c = '"' then
        (parseStringBody fuel rest).map (fun p => (Json.str ⟨p.1⟩, p.2))
      else if c = '\x7b' then
        match skipWs rest with
        | '\x7d' :: rest2 => some (.obj .nil, rest2)
        | cs2 => (parseObjItems fuel cs2).map (fun p => (Json.obj p.1, p.2))
      else if c = '[' then
        match skipWs rest with
        | ']' :: rest2 => some (.arr .nil, rest2)
        | cs2 => (parseArrItems fuel cs2).map (fun p => (Json.arr p.1, p.2))
      else if c = 't' then
        if rest.take 3 = "rue".data then some (.bool true, rest.drop 3) else none
      else if c = 'f' then
        if rest.take 4 = "alse".data then some (.bool false, rest.drop 4) else none
      else if c = 'n' then
        if rest.take 3 = "ull".data then some (.null, rest.drop 3) else none
      else if c = '-' || c.isDigit then parseNum (c :: rest)
      else none

/-- Parse the elements of a non-empty array, up to and including `]`. -/
def parseArrItems : Nat → List Char → Option (JsonList × List Char)
  | 0, _ => none
  | fuel + 1, cs =>
    match parseVal fuel cs with
    | none => none
    | some (v, rest) =>
      match skipWs rest with
      | ',' :: rest2 => (parseArrItems fuel rest2).map (fun p => (JsonList.cons v p.1, p.2))
      | ']' :: rest2 => some (JsonList.cons v .nil, rest2)
      | _ => none

/-- Parse the members of a non-empty object, up to and including the
closing brace. -/
def parseObjItems : Nat → List Char → Option (JsonObj × List Char)
  | 0, _ => none
  | fuel + 1, cs =>
    match skipWs cs with
    | '"' :: rest =>
      match parseStringBody fuel rest with
      | none => none
      | some (k, rest2) =>
        match skipWs rest2 with
        | ':' :: rest3 =>
          match parseVal fuel rest3 with
          | none => none
          | some (v, rest4) =>
            match skipWs rest4 with
            | ',' :: rest5 =>
              (parseObjItems fuel rest5).map (fun p => (JsonObj.cons ⟨k⟩ v p.1, p.2))
            | '\x7d' :: rest5 => some (JsonObj.cons ⟨k⟩ v .nil, rest5)
            | _ => none
        | _ => none
    | _ => none

end

/-- `json.loads` on one line: parse one value and require only whitespace
after it. -/
def json_loadsL (cs : List Char) : Option Json :=
  match parseVal (2 * cs.length + 8) cs with
  | some (j, rest) => if skipWs rest = [] then some j else none
  | none => none

/-! ## `str.splitlines` and blank-line detection (src/extract.py 254-255) -/

/-- Python `str.splitlines` restricted to `\n` separators: a trailing
newline does not produce a final empty line. -/
def pySplitlinesL : List Char → List (List Char)
  | [] => []
  | c :: rest =>
    if c = '\n' then [] :: pySplitlinesL rest
    else
      match pySplitlinesL rest with
      | [] => [[c]]
      | l :: ls => (c :: l) :: ls

/-- Python blank test `not line.strip()`: true when every character is
whitespace. -/
def isBlankL (cs : List Char) : Bool := cs.all fun c => c.isWhitespace

/-! ## Result materialization (src/extract.py lines 243-263)

The loop at lines 253-256 parses every non-blank line of the downloaded
content before the output file is opened at line 258, so a `json.loads`
failure (`JSONDecodeError`, propagated as `Except.error`) aborts the whole
materialization with no file created. -/

/-- The parse loop of src/extract.py lines 253-256 over the split lines:
blank lines are skipped, each other line must decode; the first failing
line raises. -/
def parseLinesGo : List (List Char) → Except String JsonList
  | [] => .ok .nil
  | line :: rest =>
    if isBlankL line then parseLinesGo rest
    else
      match json_loadsL line with
      | none => .error (String.mk line)
      | some j =>
        match parseLinesGo rest with
        | .error e => .error e
        | .ok tl => .ok (.cons j tl)

/-- Decode the whole downloaded result content into `output_list`. -/
def parseAllLines (content : String) : Except String JsonList :=
  parseLinesGo (pySplitlinesL content.data)

/-- Observable effects of `get_processed_data` after the polling loop has
delivered a terminal state. -/
structure GpdOutcome where
  /-- The exception text, when the parse loop raised. -/
  raised : Option String
  /-- Whether `client.files.download` was called. -/
  downloadOccurred : Bool
  /-- The text written to `args.output`, when the file was written. -/
  written : Option String
  /-- The Python return value: the downloaded content on success, `None`
  (modelled `none`) otherwise. -/
  returned : Option String
deriving DecidableEq

/-- Lines 243-274 of src/extract.py, given the terminal state the polling
loop observed and the downloaded result-file content.  Only the
`JOB_STATE_SUCCEEDED` branch downloads, parses, writes `args.output` and
returns the content; the `FAILED` / `CANCELLED` / `EXPIRED` branches print
and fall through to `return None`. -/
def gpd_after_poll (finalState : String) (content : String) : GpdOutcome :=
  if finalState = "JOB_STATE_SUCCEEDED" then
    match parseAllLines content with
    | .error e => ⟨some e, true, none, none⟩
    | .ok objs => ⟨none, true, some (json_dump_indent4 (.arr objs)), some content⟩
  else ⟨none, false, none, none⟩

/-- The exit logic shared by `main` (src/extract.py lines 316-321) and
`poll_download_batch.main` (lines 54-59): `sys.exit(0)` when the returned
value is truthy, `sys.exit(1)` otherwise.  Python truthiness: `None` and
the empty string are falsy. -/
def mainExitCode (returned : Option String) : Nat :=
  match returned with
  | some s => if s = "" then 1 else 0
  | none => 1

/-! ## The polling loop (src/extract.py lines 221-241)

The remote job is observed purely through `client.batches.get`; each call
returns the next element of a response stream, modelled as a list of state
names.  `get_processed_data` issues a first `get` at line 222, a second
"initial" `get` at line 234, and then loops: while the last observed state
is not terminal it sleeps 30 seconds (line 238) and queries again (line
239).  If the stream runs out before a terminal state appears the loop
never returns, modelled as `none`. -/

/-- The terminal states (src/extract.py lines 224-231). -/
def completed_states : List String :=
  ["JOB_STATE_SUCCEEDED", "JOB_STATE_FAILED", "JOB_STATE_CANCELLED",
   "JOB_STATE_EXPIRED"]

/-- What the polling loop did before returning. -/
structure PollResult where
  /-- The last observed state, terminal by construction. -/
  finalState : String
  /-- Number of `time.sleep(30)` calls. -/
  sleeps : Nat
  /-- Total seconds slept. -/
  totalSleepSeconds : Nat
  /-- Total number of `client.batches.get` calls, the two initial ones
  included. -/
  queries : Nat
deriving DecidableEq

/-- The `while` loop of lines 236-239: `st` is the state held in
`batch_job`, `rest` the remaining remote responses, `sleeps` and `queries`
the counts accumulated so far. -/
def pollLoop : String → List String → Nat → Nat → Option PollResult
  | st, rest, sleeps, queries =>
    if st ∈ completed_states then some ⟨st, sleeps, 30 * sleeps, queries⟩
    else
      match rest with
      | [] => none
      | next :: rest2 => pollLoop next rest2 (sleeps + 1) (queries + 1)

/-- The polling portion of `get_processed_data` (lines 221-241): the line
222 `get` (whose result is immediately overwritten), the line 234 `get`,
then the loop. -/
def get_processed_data_poll (states : List String) : Option PollResult :=
  match states with
  | [] => none
  | _ :: rest =>
    match rest with
    | [] => none
    | s2 :: rest2 => pollLoop s2 rest2 0 2

/-! ## `write_jsonl` (src/extract.py lines 189-204)

`open(path, "w")` truncates the destination, then one `json.dumps` line is
written per record.  A record that makes `create_request` raise leaves the
file at whatever prefix was already written. -/

/-- Opening the destination in mode `"w"` truncates it regardless of its
prior content. -/
def openW (_prior : List Char) : List Char := []

/-- The write loop of lines 202-204: `fileSt` is the file content so far. -/
def write_jsonl_go (prompt : String) (schema : Json) :
    List Char → List Record → List Char × Option String
  | fileSt, [] => (fileSt, none)
  | fileSt, item :: rest =>
    match create_request item prompt schema with
    | .error e => (fileSt, some e)
    | .ok req => write_jsonl_go prompt schema (fileSt ++ dumpValL true req ++ ['\n']) rest

/-- `write_jsonl(data, path, prompt, schema)` acting on a destination file
whose prior content is `prior`: returns the final file content and the
exception, if one was raised. -/
def write_jsonl_fs (prior : List Char) (data : List Record) (prompt : String)
    (schema : Json) : List Char × Option String :=
  write_jsonl_go prompt schema (openW prior) data

/-! ## API-key loading (src/extract.py lines 117-122) and the standalone
poll/download flow (src/poll_download_batch.py)

`load_api_key` reads `os.environ["GEMINI_API_KEY"]` (after `load_dotenv`,
which only adds variables; the environment is modelled as the resulting
assoc list).  `poll_download_batch.parse_args` accepts `--api-key-env`
(default `"GENAI_API_KEY"`), but `main` at line 45 calls `load_api_key()`
with no arguments, so the option is never consulted. -/

/-- Parsed arguments of src/poll_download_batch.py. -/
structure PollArgs where
  job_id : String
  output : String
  api_key_env : String

/-- The `--api-key-env` default (src/poll_download_batch.py line 32). -/
def pollArgsApiKeyEnvDefault : String := "GENAI_API_KEY"

/-- `load_api_key()` (src/extract.py lines 117-122). -/
def load_api_key (env : List (String × String)) : Except String String :=
  match List.lookup "GEMINI_API_KEY" env with
  | none => .error "GEMINI_API_KEY not found in environment variables"
  | some key => .ok key

/-- How `poll_download_batch.main` obtains the API key (line 45): it calls
`load_api_key()` and ignores `args.api_key_env`. -/
def poll_download_api_key (_args : PollArgs) (env : List (String × String)) :
    Except String String :=
  load_api_key env

/-- The decoded values of the non-blank lines (what `output_list` holds when
no line fails to parse). -/
def decodeLinesD : List (List Char) → JsonList
  | [] => .nil
  | l :: rest =>
    if isBlankL l then decodeLinesD rest
    else
      match json_loadsL l with
      | some j => .cons j (decodeLinesD rest)
      | none => decodeLinesD rest

/-- Whether the `"generationConfig"` entry of a built request is a
structured object (rather than, say, a string). -/
def gcIsStructuredObj (e : Except String Json) : Bool :=
  match Json.lookupKey (okValue e) "generationConfig" with
  | some (.obj _) => true
  | _ => false

deriving instance DecidableEq for Json, JsonList, JsonObj

/-! ## Serialized requests contain no raw newline

This is what makes the batch file genuine newline-delimited JSON: splitting
the written file on `\n` recovers exactly the encoded requests. -/

theorem hexChar_ne_nl (n : Nat) : hexChar n ≠ '\n' := by
  unfold hexChar
  split <;> decide

theorem nl_not_mem_uEscape (n : Nat) : '\n' ∉ uEscape n := by
  intro hu
  simp only [uEscape, List.mem_cons, List.not_mem_nil, or_false] at hu
  rcases hu with hu | hu | hu | hu | hu | hu
  · exact absurd hu (by decide)
  · exact absurd hu (by decide)
  · exact hexChar_ne_nl _ hu.symm
  · exact hexChar_ne_nl _ hu.symm
  · exact hexChar_ne_nl _ hu.symm
  · exact hexChar_ne_nl _ hu.symm

theorem nl_not_mem_escapeCharL (ea : Bool) (c : Char) : '\n' ∉ escapeCharL ea c := by
  unfold escapeCharL
  by_cases h1 : c = '"'
  · rw [if_pos h1]; decide
  rw [if_neg h1]
  by_cases h2 : c = '\\'
  · rw [if_pos h2]; decide
  rw [if_neg h2]
  by_cases h3 : c = '\n'
  · rw [if_pos h3]; decide
  rw [if_neg h3]
  by_cases h4 : c = '\r'
  · rw [if_pos h4]; decide
  rw [if_neg h4]
  by_cases h5 : c = '\t'
  · rw [if_pos h5]; decide
  rw [if_neg h5]
  by_cases h6 : c.toNat = 8
  · rw [if_pos h6]; decide
  rw [if_neg h6]
  by_cases h7 : c.toNat = 12
  · rw [if_pos h7]; decide
  rw [if_neg h7]
  by_cases h8 : c.toNat < 32
  · rw [if_pos h8]; exact nl_not_mem_uEscape _
  rw [if_neg h8]
  by_cases h9 : (ea && decide (126 < c.toNat)) = true
  · rw [if_pos h9]
    by_cases h10 : c.toNat ≤ 65535
    · rw [if_pos h10]; exact nl_not_mem_uEscape _
    · rw [if_neg h10]
      intro h
      rcases List.mem_append.mp h with h | h
      · exact nl_not_mem_uEscape _ h
      · exact nl_not_mem_uEscape _ h
  · rw [if_neg h9]
    intro h
    rcases List.mem_cons.mp h with h | h
    · exact h3 h.symm
    · exact List.not_mem_nil _ h

theorem nl_not_mem_escListL (ea : Bool) (cs : List Char) : '\n' ∉ escListL ea cs := by
  induction cs with
  | nil => exact List.not_mem_nil _
  | cons c rest ih =>
    intro h
    rcases List.mem_append.mp h with h | h
    · exact nl_not_mem_escapeCharL ea c h
    · exact ih h

theorem nl_not_mem_strLitL (ea : Bool) (s : String) : '\n' ∉ strLitL ea s := by
  intro hm
  rcases List.mem_cons.mp hm with hm | hm
  · exact absurd hm (by decide)
  · rcases List.mem_append.mp hm with hm | hm
    · exact nl_not_mem_escListL ea s.data hm
    · exact absurd hm (by decide)

theorem mem_natDigitsAux (fuel : Nat) :
    ∀ (m : Nat) (acc : List Char) (c : Char),
      c ∈ natDigitsAux fuel m acc → c ∈ acc ∨ ∃ k, c = hexChar k := by
  induction fuel with
  | zero => intro m acc c hd; exact Or.inl hd
  | succ fuel ih =>
    intro m acc c hd
    unfold natDigitsAux at hd
    split at hd
    · rcases List.mem_cons.mp hd with hd | hd
      · exact Or.inr ⟨m, hd⟩
      · exact Or.inl hd
    · rcases ih _ _ _ hd with hd | hd
      · rcases List.mem_cons.mp hd with hd | hd
        · exact Or.inr ⟨m % 10, hd⟩
        · exact Or.inl hd
      · exact Or.inr hd

theorem nl_not_mem_natDigitsL (n : Nat) : '\n' ∉ natDigitsL n := by
  intro h
  rcases mem_natDigitsAux _ _ _ _ h with h | ⟨m, h⟩
  · exact List.not_mem_nil _ h
  · exact hexChar_ne_nl m h.symm

theorem nl_not_mem_intDigitsL (n : Int) : '\n' ∉ intDigitsL n := by
  cases n with
  | ofNat m => exact nl_not_mem_natDigitsL m
  | negSucc m =>
    intro h
    rcases List.mem_cons.mp h with h | h
    · exact absurd h (by decide)
    · exact nl_not_mem_natDigitsL _ h

mutual

theorem nl_not_mem_dumpValL (ea : Bool) : ∀ (j : Json), '\n' ∉ dumpValL ea j
  | .null => by simp only [dumpValL]; decide
  | .bool true => by simp only [dumpValL]; decide
  | .bool false => by simp only [dumpValL]; decide
  | .num n => by simp only [dumpValL]; exact nl_not_mem_intDigitsL n
  | .str s => by simp only [dumpValL]; exact nl_not_mem_strLitL ea s
  | .arr xs => by
    simp only [dumpValL]
    intro hm
    rcases List.mem_cons.mp hm with hm | hm
    · exact absurd hm (by decide)
    · rcases List.mem_append.mp hm with hm | hm
      · exact nl_not_mem_dumpArrL ea xs hm
      · exact absurd hm (by decide)
  | .obj kvs => by
    simp only [dumpValL]
    intro hm
    rcases List.mem_cons.mp hm with hm | hm
    · exact absurd hm (by decide)
    · rcases List.mem_append.mp hm with hm | hm
      · exact nl_not_mem_dumpObjL ea kvs hm
      · exact absurd hm (by decide)

theorem nl_not_mem_dumpArrL (ea : Bool) : ∀ (xs : JsonList), '\n' ∉ dumpArrL ea xs
  | .nil => by simp only [dumpArrL]; exact List.not_mem_nil _
  | .cons x .nil => by simp only [dumpArrL]; exact nl_not_mem_dumpValL ea x
  | .cons x (.cons y tl) => by
    simp only [dumpArrL]
    intro hm
    rcases List.mem_append.mp hm with hm | hm
    · exact nl_not_mem_dumpValL ea x hm
    · rcases List.mem_cons.mp hm with hm | hm
      · exact absurd hm (by decide)
      · rcases List.mem_cons.mp hm with hm | hm
        · exact absurd hm (by decide)
        · exact nl_not_mem_dumpArrL ea (.cons y tl) hm

theorem nl_not_mem_dumpObjL (ea : Bool) : ∀ (kvs : JsonObj), '\n' ∉ dumpObjL ea kvs
  | .nil => by simp only [dumpObjL]; exact List.not_mem_nil _
  | .cons k v .nil => by
    simp only [dumpObjL]
    intro hm
    rcases List.mem_append.mp hm with hm | hm
    · exact nl_not_mem_strLitL ea k hm
    · rcases List.mem_cons.mp hm with hm | hm
      · exact absurd hm (by decide)
      · rcases List.mem_cons.mp hm with hm | hm
        · exact absurd hm (by decide)
        · exact nl_not_mem_dumpValL ea v hm
  | .cons k v (.cons k2 v2 tl) => by
    simp only [dumpObjL]
    intro hm
    rcases List.mem_append.mp hm with hm | hm
    · rcases List.mem_append.mp hm with hm | hm
      · exact nl_not_mem_strLitL ea k hm
      · rcases List.mem_cons.mp hm with hm | hm
        · exact absurd hm (by decide)
        · rcases List.mem_cons.mp hm with hm | hm
          · exact absurd hm (by decide)
          · exact nl_not_mem_dumpValL ea v hm
    · rcases List.mem_cons.mp hm with hm | hm
      · exact absurd hm (by decide)
      · rcases List.mem_cons.mp hm with hm | hm
        · exact absurd hm (by decide)
        · exact nl_not_mem_dumpObjL ea (.cons k2 v2 tl) hm

end

/-! ## Splitting a newline-joined file recovers its lines -/

theorem pySplitlinesL_append_line (rest : List Char) :
    ∀ (l : List Char), '\n' ∉ l →
      pySplitlinesL (l ++ '\n' :: rest) = l :: pySplitlinesL rest := by
  intro xs
  induction xs with
  | nil => intro _; simp [pySplitlinesL]
  | cons c l ih =>
    intro h
    have hc : c ≠ '\n' := fun e => h (e ▸ List.mem_cons_self _ _)
    have h2 : '\n' ∉ l := fun m => h (List.mem_cons_of_mem _ m)
    have hrec := ih h2
    simp only [List.cons_append, pySplitlinesL, if_neg hc, List.append_eq, hrec]

theorem pySplitlinesL_join (lines : List (List Char))
    (h : ∀ l ∈ lines, '\n' ∉ l) :
    pySplitlinesL ((lines.map fun l => l ++ ['\n']).flatten) = lines := by
  induction lines with
  | nil => rfl
  | cons l ls ih =>
    have h1 : '\n' ∉ l := h l (List.mem_cons_self _ _)
    have h2 : ∀ x ∈ ls, '\n' ∉ x := (List.forall_mem_cons.mp h).2
    simp only [List.map_cons, List.flatten_cons, List.append_assoc, List.singleton_append]
    rw [pySplitlinesL_append_line _ l h1, ih h2]

/-! ## Behavior of `create_request` on well-formed and malformed records -/

theorem create_request_isOk_iff (record : Record) (prompt : String) (schema : Json) :
    isOkB (create_request record prompt schema) =
      ((List.lookup "uri" record).isSome && (List.lookup "body" record).isSome) := by
  unfold create_request
  cases List.lookup "body" record with
  | none => cases List.lookup "uri" record <;> simp [isOkB]
  | some bv => cases List.lookup "uri" record <;> simp [isOkB]

theorem create_request_eq_ok (record : Record) (prompt : String) (schema : Json)
    (h : isOkB (create_request record prompt schema) = true) :
    create_request record prompt schema = .ok (okValue (create_request record prompt schema)) := by
  cases hcr : create_request record prompt schema with
  | error e => rw [hcr] at h; simp [isOkB] at h
  | ok j => simp [okValue]

/-! ## The write loop under all-valid records -/

theorem write_jsonl_go_ok (prompt : String) (schema : Json) :
    ∀ (data : List Record) (acc : List Char),
      (∀ r ∈ data, isOkB (create_request r prompt schema) = true) →
      write_jsonl_go prompt schema acc data =
        (acc ++ ((data.map fun r =>
          dumpValL true (okValue (create_request r prompt schema)) ++ ['\n'])).flatten,
         none) := by
  intro data
  induction data with
  | nil => intro acc _; simp [write_jsonl_go]
  | cons r rest ih =>
    intro acc h
    have hr := h r (List.mem_cons_self _ _)
    have hrest : ∀ x ∈ rest, isOkB (create_request x prompt schema) = true :=
      (List.forall_mem_cons.mp h).2
    cases hcr : create_request r prompt schema with
    | error e => rw [hcr] at hr; simp [isOkB] at hr
    | ok j =>
      have hov : okValue (create_request r prompt schema) = j := by
        rw [hcr]; rfl
      simp only [write_jsonl_go, hcr, ih _ hrest, hov, okValue, List.map_cons,
        List.flatten_cons, List.append_assoc]

/-! ## The parse loop of the materializer -/

theorem parseLinesGo_error_of_bad :
    ∀ (lines : List (List Char)),
      lines.any (fun l => !isBlankL l && (json_loadsL l).isNone) = true →
      isOkB (parseLinesGo lines) = false := by
  intro lines
  induction lines with
  | nil => intro h; simp at h
  | cons l rest ih =>
    intro h
    simp only [List.any_cons, Bool.or_eq_true] at h
    rcases h with hl | hrest
    · simp only [Bool.and_eq_true, Bool.not_eq_true', Option.isNone_iff_eq_none] at hl
      obtain ⟨hb, hn⟩ := hl
      simp [parseLinesGo, hb, hn, isOkB]
    · have hrec := ih hrest
      unfold parseLinesGo
      by_cases hb : isBlankL l
      · simpa [hb] using hrec
      · cases hn : json_loadsL l with
        | none => simp [hb, hn, isOkB]
        | some j =>
          cases hgo : parseLinesGo rest with
          | error e => simp [hb, hn, hgo, isOkB]
          | ok tl => rw [hgo] at hrec; simp [isOkB] at hrec

theorem parseLinesGo_ok_of_all :
    ∀ (lines : List (List Char)),
      lines.all (fun l => isBlankL l || (json_loadsL l).isSome) = true →
      parseLinesGo lines = .ok (decodeLinesD lines) ∧
        jsonListLength (decodeLinesD lines) =
          (lines.filter fun l => !isBlankL l).length := by
  intro lines
  induction lines with
  | nil => intro _; exact ⟨rfl, rfl⟩
  | cons l rest ih =>
    intro h
    simp only [List.all_cons, Bool.and_eq_true] at h
    obtain ⟨hl, hrest⟩ := h
    have hrec := ih hrest
    by_cases hb : isBlankL l
    · refine ⟨?_, ?_⟩
      · simp only [parseLinesGo, decodeLinesD, if_pos hb]
        exact hrec.1
      · simp only [decodeLinesD, if_pos hb, List.filter_cons, hb]
        simpa using hrec.2
    · have hs : (json_loadsL l).isSome = true := by
        rcases Bool.or_eq_true _ _ |>.mp hl with h1 | h1
        · exact absurd h1 (by simp [hb])
        · exact h1
      cases hn : json_loadsL l with
      | none => rw [hn] at hs; simp at hs
      | some j =>
        refine ⟨?_, ?_⟩
        · simp only [parseLinesGo, decodeLinesD, if_neg hb, hn, hrec.1]
        · simp only [decodeLinesD, if_neg hb, hn, jsonListLength, List.filter_cons, hb]
          simp [hrec.2, Nat.add_comm]

/-! ## The polling loop returns only terminal states -/

theorem pollLoop_some_terminal :
    ∀ (rest : List String) (st : String) (sleeps queries : Nat) (r : PollResult),
      pollLoop st rest sleeps queries = some r →
      r.finalState ∈ completed_states ∧ r.totalSleepSeconds = 30 * r.sleeps := by
  intro rest
  induction rest with
  | nil =>
    intro st sleeps queries r h
    unfold pollLoop at h
    split at h
    · cases h with
      | refl => exact ⟨by assumption, rfl⟩
    · exact absurd h (by simp)
  | cons next rest2 ih =>
    intro st sleeps queries r h
    unfold pollLoop at h
    split at h
    · cases h with
      | refl => exact ⟨by assumption, rfl⟩
    · exact ih next (sleeps + 1) (queries + 1) r h

/-! ## Claim C1 -/

/-- Claim C1 counterexample: with the remote responding
`RUNNING, RUNNING, SUCCEEDED`, one state per `client.batches.get` call,
`get_processed_data` sleeps exactly once — not the claimed two times —
because lines 222 and 234 both query before the loop is entered. -/
theorem poll_sleep_count_counterexample :
    get_processed_data_poll
        ["JOB_STATE_RUNNING", "JOB_STATE_RUNNING", "JOB_STATE_SUCCEEDED"] =
      some ⟨"JOB_STATE_SUCCEEDED", 1, 30, 3⟩ ∧
    (get_processed_data_poll
        ["JOB_STATE_RUNNING", "JOB_STATE_RUNNING", "JOB_STATE_SUCCEEDED"]).map
        PollResult.sleeps ≠ some 2 :=
  ⟨rfl, by decide⟩

/-- Claim C1 (amended): whenever the polling portion of
`get_processed_data` returns, the most recently queried state is terminal
and the total time slept is 30 seconds per loop iteration; given the remote
state sequence `RUNNING, RUNNING, SUCCEEDED` it performs exactly one sleep
and two queries beyond the initial one (three in total), since the function
issues a second status query before entering the loop. -/
theorem poll_stops_only_on_terminal :
    (∀ (states : List String) (r : PollResult),
      get_processed_data_poll states = some r →
      r.finalState ∈ completed_states ∧ r.totalSleepSeconds = 30 * r.sleeps) ∧
    get_processed_data_poll
        ["JOB_STATE_RUNNING", "JOB_STATE_RUNNING", "JOB_STATE_SUCCEEDED"] =
      some ⟨"JOB_STATE_SUCCEEDED", 1, 30, 3⟩ := by
  constructor
  · intro states r h
    match states with
    | [] => exact absurd h (by simp [get_processed_data_poll])
    | [s1] => exact absurd h (by simp [get_processed_data_poll])
    | s1 :: s2 :: rest => exact pollLoop_some_terminal rest s2 0 2 r h
  · rfl

/-- Claim C1 witness: the safety part of `poll_stops_only_on_terminal`
applied to the concrete response stream `CANCELLED, FAILED`. -/
theorem poll_stops_only_on_terminal_witness :
    "JOB_STATE_FAILED" ∈ completed_states ∧ (0 : Nat) = 30 * 0 :=
  have h := poll_stops_only_on_terminal.1 ["JOB_STATE_CANCELLED", "JOB_STATE_FAILED"]
    ⟨"JOB_STATE_FAILED", 0, 0, 2⟩ rfl
  ⟨h.1, h.2⟩

/-! ## Claim C2 -/

/-- Claim C2: whenever the downloaded result content has a non-blank line
that is not valid JSON, the materialization raises (the `json.loads` error
propagates) and the output file is not written — not even partially —
because the parse loop of lines 253-256 runs to the failing line before the
output file is opened at line 258. -/
theorem materialize_aborts_on_bad_line (content : String)
    (h : (pySplitlinesL content.data).any
        (fun l => !isBlankL l && (json_loadsL l).isNone) = true) :
    isOkB (parseAllLines content) = false ∧
    (gpd_after_poll "JOB_STATE_SUCCEEDED" content).raised.isSome = true ∧
    (gpd_after_poll "JOB_STATE_SUCCEEDED" content).written = none := by
  have hbad : isOkB (parseAllLines content) = false := parseLinesGo_error_of_bad _ h
  refine ⟨hbad, ?_, ?_⟩ <;>
  · unfold gpd_after_poll
    rw [if_pos rfl]
    cases hp : parseAllLines content with
    | error e => simp
    | ok tl => rw [hp] at hbad; simp [isOkB] at hbad

/-- Claim C2 witness: content whose first line is valid JSON and whose
second line is not. -/
theorem materialize_aborts_on_bad_line_witness :
    isOkB (parseAllLines ("\x7b\"a\": 1\x7d\nnot json")) = false ∧
    (gpd_after_poll "JOB_STATE_SUCCEEDED" ("\x7b\"a\": 1\x7d\nnot json")).raised.isSome
      = true ∧
    (gpd_after_poll "JOB_STATE_SUCCEEDED" ("\x7b\"a\": 1\x7d\nnot json")).written
      = none :=
  materialize_aborts_on_bad_line ("\x7b\"a\": 1\x7d\nnot json") (by decide)

/-! ## Claim C3 -/

/-- Claim C3: for a record carrying string fields `uri` and `body`,
`create_request` succeeds, the built request's `"key"` equals the record's
`uri`, and its single text part is the prompt followed by the body wrapped
verbatim in article tags. -/
theorem create_request_key_and_text (record : Record) (prompt : String)
    (schema : Json) (u b : String)
    (hu : List.lookup "uri" record = some (.pystr u))
    (hb : List.lookup "body" record = some (.pystr b)) :
    isOkB (create_request record prompt schema) = true ∧
    Json.lookupKey (okValue (create_request record prompt schema)) "key" =
      some (.str u) ∧
    extractTexts (okValue (create_request record prompt schema)) =
      [prompt ++ "<article>" ++ b ++ "</article>"] := by
  unfold create_request
  rw [hb, hu]
  exact ⟨rfl, rfl, rfl⟩

/-- Claim C3 witness: a concrete record. -/
theorem create_request_key_and_text_witness :
    isOkB (create_request [("uri", PyVal.pystr "u1"), ("body", PyVal.pystr "B")]
      "P" Json.null) = true ∧
    Json.lookupKey (okValue (create_request
      [("uri", PyVal.pystr "u1"), ("body", PyVal.pystr "B")] "P" Json.null)) "key" =
      some (.str "u1") ∧
    extractTexts (okValue (create_request
      [("uri", PyVal.pystr "u1"), ("body", PyVal.pystr "B")] "P" Json.null)) =
      ["P" ++ "<article>" ++ "B" ++ "</article>"] :=
  create_request_key_and_text
    [("uri", PyVal.pystr "u1"), ("body", PyVal.pystr "B")] "P" Json.null
    "u1" "B" rfl rfl

/-! ## Claim C4 -/

/-- Claim C4 counterexample: at a concrete record `create_request`
succeeds, yet the `"generationConfig"` entry of the built request is not a
structured object — line 149 of src/extract.py passes the config dict
through `str(...)`, so it is an opaque string. -/
theorem generationConfig_not_object_counterexample :
    isOkB (create_request [("uri", PyVal.pystr "u1"), ("body", PyVal.pystr "B")]
      "P" Json.null) = true ∧
    gcIsStructuredObj (create_request
      [("uri", PyVal.pystr "u1"), ("body", PyVal.pystr "B")] "P" Json.null) = false :=
  ⟨rfl, rfl⟩

/-- Claim C4 (amended): for every record with `uri` and `body` present, the
built request's `"generationConfig"` entry is the Python `str()` rendering
of the dict holding response MIME type `application/json`, the given
response schema and temperature `0` — an opaque string, not a structured
object. -/
theorem generationConfig_stringified (record : Record) (prompt : String)
    (schema : Json) (uv bv : PyVal)
    (hu : List.lookup "uri" record = some uv)
    (hb : List.lookup "body" record = some bv) :
    Json.lookupKey (okValue (create_request record prompt schema))
      "generationConfig" = some (.str ⟨pyReprVal (genConfigDict schema)⟩) ∧
    gcIsStructuredObj (create_request record prompt schema) = false := by
  unfold gcIsStructuredObj
  unfold create_request
  rw [hb, hu]
  exact ⟨rfl, rfl⟩

/-- Claim C4 witness: the amended claim at a concrete record and schema. -/
theorem generationConfig_stringified_witness :
    Json.lookupKey (okValue (create_request
      [("uri", PyVal.pystr "u2"), ("body", PyVal.pystr "C")] "Q" Json.null))
      "generationConfig" = some (.str ⟨pyReprVal (genConfigDict Json.null)⟩) ∧
    gcIsStructuredObj (create_request
      [("uri", PyVal.pystr "u2"), ("body", PyVal.pystr "C")] "Q" Json.null) = false :=
  generationConfig_stringified
    [("uri", PyVal.pystr "u2"), ("body", PyVal.pystr "C")] "Q" Json.null
    (PyVal.pystr "u2") (PyVal.pystr "C") rfl rfl

/-! ## Claim C5 -/

/-- Claim C5 counterexample: a record whose `uri` and `body` are both
present with value `None` (null) makes `create_request` succeed — the
claimed `MalformedRecordError` for null values does not occur; the body
renders as the literal text `None` inside the article tag. -/
theorem null_fields_succeed_counterexample :
    isOkB (create_request [("uri", PyVal.pynone), ("body", PyVal.pynone)]
      "P" Json.null) = true :=
  rfl

/-- Claim C5 (amended): `create_request` fails (with `KeyError`, the
code-level `MalformedRecordError`) exactly when the record lacks the `uri`
key or the `body` key; records carrying both keys succeed even when either
value is null. -/
theorem create_request_fails_iff_key_missing (record : Record)
    (prompt : String) (schema : Json) :
    isOkB (create_request record prompt schema) =
      ((List.lookup "uri" record).isSome && (List.lookup "body" record).isSome) :=
  create_request_isOk_iff record prompt schema

/-! ## Claim C6 -/

/-- Claim C6: for every list of article records (records carrying `uri` and
`body`, per the data model), `write_jsonl` raises nothing and the written
file splits into exactly one line per input record, in input order, each
line being the `json.dumps` encoding of the request built from the
corresponding record — in particular every line is the JSON encoding of
some value. -/
theorem write_jsonl_one_line_per_record (prior : List Char) (data : List Record)
    (prompt : String) (schema : Json)
    (h : ∀ r ∈ data, (List.lookup "uri" r).isSome = true ∧
      (List.lookup "body" r).isSome = true) :
    (write_jsonl_fs prior data prompt schema).2 = none ∧
    pySplitlinesL (write_jsonl_fs prior data prompt schema).1 =
      data.map (fun r => dumpValL true (okValue (create_request r prompt schema))) ∧
    ∀ line ∈ pySplitlinesL (write_jsonl_fs prior data prompt schema).1,
      ∃ j : Json, dumpValL true j = line := by
  have hok : ∀ r ∈ data, isOkB (create_request r prompt schema) = true := by
    intro r hr
    rw [create_request_isOk_iff]
    rcases h r hr with ⟨h1, h2⟩
    rw [h1, h2]
    rfl
  have hfs : write_jsonl_fs prior data prompt schema =
      ((data.map fun r =>
        dumpValL true (okValue (create_request r prompt schema)) ++ ['\n']).flatten,
       none) := by
    unfold write_jsonl_fs openW
    rw [write_jsonl_go_ok prompt schema data [] hok]
    rw [List.nil_append]
  have hmapmap : (data.map fun r =>
        dumpValL true (okValue (create_request r prompt schema)) ++ ['\n']) =
      ((data.map fun r =>
        dumpValL true (okValue (create_request r prompt schema))).map
          fun l => l ++ ['\n']) := by
    rw [List.map_map]
    rfl
  have hnl : ∀ l ∈ (data.map fun r =>
      dumpValL true (okValue (create_request r prompt schema))), '\n' ∉ l := by
    intro l hl
    rcases List.mem_map.mp hl with ⟨r, _, rfl⟩
    exact nl_not_mem_dumpValL true _
  have hsplit : pySplitlinesL (write_jsonl_fs prior data prompt schema).1 =
      data.map (fun r => dumpValL true (okValue (create_request r prompt schema))) := by
    rw [hfs, hmapmap]
    exact pySplitlinesL_join _ hnl
  refine ⟨by rw [hfs], hsplit, ?_⟩
  intro line hline
  rw [hsplit] at hline
  rcases List.mem_map.mp hline with ⟨r, _, rfl⟩
  exact ⟨okValue (create_request r prompt schema), rfl⟩

/-- Claim C6 witness: two concrete records. -/
theorem write_jsonl_one_line_per_record_witness :
    (write_jsonl_fs ("old".data)
      [[("uri", PyVal.pystr "u1"), ("body", PyVal.pystr "A")],
       [("uri", PyVal.pystr "u2"), ("body", PyVal.pystr "B")]]
      "P" Json.null).2 = none ∧
    pySplitlinesL (write_jsonl_fs ("old".data)
      [[("uri", PyVal.pystr "u1"), ("body", PyVal.pystr "A")],
       [("uri", PyVal.pystr "u2"), ("body", PyVal.pystr "B")]]
      "P" Json.null).1 =
      [[("uri", PyVal.pystr "u1"), ("body", PyVal.pystr "A")],
       [("uri", PyVal.pystr "u2"), ("body", PyVal.pystr "B")]].map
        (fun r => dumpValL true (okValue (create_request r "P" Json.null))) :=
  ⟨(write_jsonl_one_line_per_record ("old".data)
      [[("uri", PyVal.pystr "u1"), ("body", PyVal.pystr "A")],
       [("uri", PyVal.pystr "u2"), ("body", PyVal.pystr "B")]]
      "P" Json.null (by decide)).1,
   (write_jsonl_one_line_per_record ("old".data)
      [[("uri", PyVal.pystr "u1"), ("body", PyVal.pystr "A")],
       [("uri", PyVal.pystr "u2"), ("body", PyVal.pystr "B")]]
      "P" Json.null (by decide)).2.1⟩

/-! ## Claim C7 -/

/-- Claim C7: when the job succeeded and every non-blank line of the
downloaded content decodes as JSON, `get_processed_data` downloads, parses
one value per non-blank line and writes to `args.output` the single JSON
array of those values serialized with `indent=4` and `ensure_ascii=False`;
the array's length equals the number of non-blank lines, and with
`ensure_ascii=False` every character of code point at least 32 other than
the quote and the backslash — all non-ASCII characters included — is
emitted literally rather than escaped. -/
theorem materialize_success_pretty_array (content : String)
    (h : (pySplitlinesL content.data).all
        (fun l => isBlankL l || (json_loadsL l).isSome) = true) :
    parseAllLines content = .ok (decodeLinesD (pySplitlinesL content.data)) ∧
    gpd_after_poll "JOB_STATE_SUCCEEDED" content =
      ⟨none, true,
       some (json_dump_indent4 (.arr (decodeLinesD (pySplitlinesL content.data)))),
       some content⟩ ∧
    jsonListLength (decodeLinesD (pySplitlinesL content.data)) =
      ((pySplitlinesL content.data).filter fun l => !isBlankL l).length ∧
    (∀ c : Char, 32 ≤ c.toNat → c ≠ '"' → c ≠ '\\' → escapeCharL false c = [c]) := by
  obtain ⟨hok, hlen⟩ := parseLinesGo_ok_of_all _ h
  have hok2 : parseAllLines content = .ok (decodeLinesD (pySplitlinesL content.data)) :=
    hok
  refine ⟨hok2, ?_, hlen, ?_⟩
  · unfold gpd_after_poll
    rw [if_pos rfl, hok2]
  · intro c h32 hq hbs
    have hn : c ≠ '\n' := by
      intro e; rw [e] at h32; exact absurd h32 (by decide)
    have hr : c ≠ '\r' := by
      intro e; rw [e] at h32; exact absurd h32 (by decide)
    have ht : c ≠ '\t' := by
      intro e; rw [e] at h32; exact absurd h32 (by decide)
    unfold escapeCharL
    have hc8 : ¬ c.toNat = 8 := by omega
    have hc12 : ¬ c.toNat = 12 := by omega
    have hc32 : ¬ c.toNat < 32 := by omega
    rw [if_neg hq, if_neg hbs, if_neg hn, if_neg hr, if_neg ht, if_neg hc8,
      if_neg hc12, if_neg hc32, if_neg (by simp)]

/-- Claim C7 witness: two valid result lines, keys `a` and `b`, yield an
array of the two decoded objects. -/
theorem materialize_success_pretty_array_witness :
    parseAllLines ("\x7b\"key\": \"a\"\x7d\n\x7b\"key\": \"b\"\x7d\n") =
      .ok (decodeLinesD (pySplitlinesL
        ("\x7b\"key\": \"a\"\x7d\n\x7b\"key\": \"b\"\x7d\n").data)) ∧
    gpd_after_poll "JOB_STATE_SUCCEEDED"
        ("\x7b\"key\": \"a\"\x7d\n\x7b\"key\": \"b\"\x7d\n") =
      ⟨none, true,
       some (json_dump_indent4 (.arr (decodeLinesD (pySplitlinesL
         ("\x7b\"key\": \"a\"\x7d\n\x7b\"key\": \"b\"\x7d\n").data)))),
       some ("\x7b\"key\": \"a\"\x7d\n\x7b\"key\": \"b\"\x7d\n")⟩ ∧
    jsonListLength (decodeLinesD (pySplitlinesL
      ("\x7b\"key\": \"a\"\x7d\n\x7b\"key\": \"b\"\x7d\n").data)) = 2 :=
  ⟨(materialize_success_pretty_array
      ("\x7b\"key\": \"a\"\x7d\n\x7b\"key\": \"b\"\x7d\n") (by decide)).1,
   (materialize_success_pretty_array
      ("\x7b\"key\": \"a\"\x7d\n\x7b\"key\": \"b\"\x7d\n") (by decide)).2.1,
   by decide⟩

/-! ## Claim C8 -/

/-- Claim C8 counterexample: a `SUCCEEDED` job whose downloaded content is
empty is materialized — the output file receives the empty array — yet the
process exits with code 1, because `main` tests the truthiness of the
returned content string and the empty string is falsy in Python. -/
theorem success_empty_content_exit_counterexample :
    gpd_after_poll "JOB_STATE_SUCCEEDED" "" = ⟨none, true, some "[]", some ""⟩ ∧
    mainExitCode (gpd_after_poll "JOB_STATE_SUCCEEDED" "").returned = 1 :=
  ⟨rfl, rfl⟩

/-- Claim C8 (amended): for the terminal states `FAILED`, `CANCELLED` and
`EXPIRED`, materialization is skipped — no download occurs, no output file
is written, `None` is returned — and the process exits 1; when the job
succeeds, the content parses and the downloaded content is non-empty, the
output file is written and the process exits 0.  (With empty downloaded
content the file is still written but the exit code is 1, as the
counterexample records.) -/
theorem terminal_outcomes_exit_codes :
    (∀ (st content : String),
      (st = "JOB_STATE_FAILED" ∨ st = "JOB_STATE_CANCELLED" ∨
        st = "JOB_STATE_EXPIRED") →
      gpd_after_poll st content = ⟨none, false, none, none⟩ ∧
      mainExitCode (gpd_after_poll st content).returned = 1) ∧
    (∀ content : String, content ≠ "" →
      isOkB (parseAllLines content) = true →
      (gpd_after_poll "JOB_STATE_SUCCEEDED" content).written.isSome = true ∧
      mainExitCode (gpd_after_poll "JOB_STATE_SUCCEEDED" content).returned = 0) := by
  constructor
  · intro st content hst
    have hne : st ≠ "JOB_STATE_SUCCEEDED" := by
      rcases hst with hs | hs | hs <;> rw [hs] <;> decide
    unfold gpd_after_poll
    rw [if_neg hne]
    exact ⟨rfl, rfl⟩
  · intro content hne hok
    cases hp : parseAllLines content with
    | error e => rw [hp] at hok; simp [isOkB] at hok
    | ok objs =>
      have hexit : mainExitCode (some content) = 0 := by
        show (if content = "" then 1 else 0) = 0
        rw [if_neg hne]
      unfold gpd_after_poll
      rw [if_pos rfl, hp]
      exact ⟨rfl, hexit⟩

/-- Claim C8 witness: a failed job at concrete content, and a succeeded job
at the concrete content `null`. -/
theorem terminal_outcomes_exit_codes_witness :
    gpd_after_poll "JOB_STATE_FAILED" "x" = ⟨none, false, none, none⟩ ∧
    mainExitCode (gpd_after_poll "JOB_STATE_SUCCEEDED" "null").returned = 0 :=
  ⟨(terminal_outcomes_exit_codes.1 "JOB_STATE_FAILED" "x" (Or.inl rfl)).1,
   (terminal_outcomes_exit_codes.2 "null" (by decide) rfl).2⟩

/-! ## Claim C9 -/

/-- Claim C9: `write_jsonl` opens its destination in mode `"w"`
(truncate-then-write), so the resulting file content and raised error
depend only on the inputs — any two prior file contents yield the same
result — and a second run over its own output changes nothing. -/
theorem write_jsonl_truncate_idempotent (prior prior2 : List Char)
    (data : List Record) (prompt : String) (schema : Json) :
    write_jsonl_fs prior data prompt schema =
      write_jsonl_fs prior2 data prompt schema ∧
    write_jsonl_fs (write_jsonl_fs prior data prompt schema).1 data prompt schema =
      write_jsonl_fs prior data prompt schema :=
  ⟨rfl, rfl⟩

/-! ## Claim C10 -/

/-- Claim C10: in the standalone poll/download flow the API key is read
from the `GEMINI_API_KEY` environment variable regardless of the
`--api-key-env` option value (whose default names `GENAI_API_KEY`): two
runs whose environments agree on `GEMINI_API_KEY` obtain the same key
whatever `api_key_env` values were parsed, and the key is exactly what
`load_api_key` reads. -/
theorem poll_download_ignores_api_key_env (jobId out e1 e2 : String)
    (env1 env2 : List (String × String))
    (h : List.lookup "GEMINI_API_KEY" env1 = List.lookup "GEMINI_API_KEY" env2) :
    poll_download_api_key ⟨jobId, out, e1⟩ env1 =
      poll_download_api_key ⟨jobId, out, e2⟩ env2 ∧
    poll_download_api_key ⟨jobId, out, pollArgsApiKeyEnvDefault⟩ env1 =
      load_api_key env1 := by
  constructor
  · unfold poll_download_api_key load_api_key
    rw [h]
  · rfl

/-- Claim C10 witness: a run whose environment binds both `GENAI_API_KEY`
and `GEMINI_API_KEY` behaves exactly as one with a different
`--api-key-env` value and no `GENAI_API_KEY` binding at all. -/
theorem poll_download_ignores_api_key_env_witness :
    poll_download_api_key ⟨"job1", "out.json", "GENAI_API_KEY"⟩
        [("GENAI_API_KEY", "other"), ("GEMINI_API_KEY", "k")] =
      poll_download_api_key ⟨"job1", "out.json", "SOME_OTHER_VAR"⟩
        [("GEMINI_API_KEY", "k")] ∧
    poll_download_api_key ⟨"job1", "out.json", "GENAI_API_KEY"⟩
        [("GENAI_API_KEY", "other"), ("GEMINI_API_KEY", "k")] =
      load_api_key [("GENAI_API_KEY", "other"), ("GEMINI_API_KEY", "k")] :=
  ⟨(poll_download_ignores_api_key_env "job1" "out.json" "GENAI_API_KEY"
      "SOME_OTHER_VAR" [("GENAI_API_KEY", "other"), ("GEMINI_API_KEY", "k")]
      [("GEMINI_API_KEY", "k")] (by decide)).1,
   (poll_download_ignores_api_key_env "job1" "out.json" "GENAI_API_KEY"
      "SOME_OTHER_VAR" [("GENAI_API_KEY", "other"), ("GEMINI_API_KEY", "k")]
      [("GEMINI_API_KEY", "k")] (by decide)).2⟩

end GazaCoverage
